import Mathlib

/-!
Verification development for the Aero AI chatbot (src/script.js).

The file shallowly embeds the code that the specification talks about:
the lexical feature extractor and search-need scorer
(`shouldPerformWebSearch`, script.js lines 364-464), the search
aggregator (`performWebSearch`, lines 466-525), the two source lookups
(`searchWikipedia` lines 529-547, `searchDuckDuckGo` lines 549-574),
and the chat submission / persistence pipeline (`handleChatSubmit`
lines 325-361, `handleResponse` lines 789-814, `addToHistory` /
`saveCurrentChat` / `saveAllChats` / `loadAllChats` / `loadChat`
lines 58-145).

JavaScript strings are modelled as `List Char` (code points); the
handful of string operations the code uses (`toLowerCase`, `trim`,
`split(/\s+/)`, `includes`, `startsWith`, `substring`, regex tests)
are translated to executable Lean functions over `List Char`,
following the exact semantics of the JavaScript constructs on the
ASCII inputs the app manipulates.
-/

/-- Model of the JavaScript `\s` character class / `trim` whitespace set
(ASCII part; the exotic Unicode whitespace code points are not used by
the program or the proofs). -/
def wsChar (c : Char) : Bool :=
  c == ' ' || c == '\t' || c == '\n' || c == '\r' || c == '\x0b' || c == '\x0c'

/-- Model of `String.prototype.toLowerCase` on one character (ASCII case
mapping, which is all the scorer keyword matching relies on). -/
def jsToLower (c : Char) : Char :=
  if 65 ≤ c.toNat ∧ c.toNat ≤ 90 then Char.ofNat (c.toNat + 32) else c

/-- Model of `String.prototype.trim`: drop whitespace at both ends. -/
def trimList (l : List Char) : List Char :=
  ((l.dropWhile wsChar).reverse.dropWhile wsChar).reverse

/-- `query.toLowerCase().trim()` — the normalized query `lowerQuery`
computed at script.js line 365. -/
def normalizeChars (q : String) : List Char :=
  trimList (q.data.map jsToLower)

/-- Model of `String.prototype.includes`: `need` occurs as a contiguous
substring of the remaining text. -/
def hasSub (need : List Char) : List Char → Bool
  | [] => need.isEmpty
  | c :: rest => need.isPrefixOf (c :: rest) || hasSub need rest

/-- Some keyword of the list occurs as a substring (`keywords.some(k => lowerQuery.includes(k))`). -/
def containsAny (keywords : List String) (lc : List Char) : Bool :=
  keywords.any (fun k => hasSub k.data lc)

/-- `timeKeywords`, script.js lines 369-373. -/
def timeKeywords : List String :=
  ["latest", "recent", "current", "today", "now", "this week", "this month",
   "this year", "yesterday", "breaking", "update", "news", "just happened",
   "currently", "ongoing", "live", "real-time", "as of", "right now"]

/-- `namedEntities`, script.js lines 385-397. -/
def namedEntities : List String :=
  ["google", "apple", "microsoft", "amazon", "meta", "facebook", "tesla",
   "spacex", "openai", "anthropic", "nvidia", "intel", "amd", "samsung",
   "elon musk", "bill gates", "jeff bezos", "mark zuckerberg", "satya nadella",
   "sam altman", "sundar pichai", "tim cook",
   "chatgpt", "gemini", "claude", "iphone", "android", "windows", "mac",
   "bitcoin", "ethereum", "stock", "cryptocurrency",
   "election", "olympics", "world cup", "summit", "conference", "launch"]

/-- `realTimeIndicators`, script.js lines 401-407. -/
def realTimeIndicators : List String :=
  ["price", "cost", "worth", "value", "stock price", "market",
   "weather", "temperature", "forecast",
   "score", "result", "winner", "champion",
   "status", "availability", "open", "closed",
   "trending", "popular", "viral", "top"]

/-- `noSearchKeywords`, script.js lines 427-433. -/
def noSearchKeywords : List String :=
  ["explain", "how does", "how do", "why does", "why do",
   "write", "create", "generate", "make me", "help me",
   "poem", "story", "essay", "code", "script", "function",
   "translate", "summarize", "rewrite", "paraphrase",
   "joke", "riddle", "fun fact", "imagine", "pretend"]

/-- The alternatives of the anchored regex `questionStarters`
(script.js line 381). -/
def questionStarters : List String :=
  ["what", "who", "when", "where", "which", "how", "why",
   "can you tell me", "tell me about", "do you know"]

/-- `^(what|who|...)` : some starter is a prefix of the normalized query. -/
def isQuestionFn (lc : List Char) : Bool :=
  questionStarters.any (fun k => k.data.isPrefixOf lc)

/-- JavaScript `\w` word character ([A-Za-z0-9_]). -/
def wordCharB (c : Char) : Bool :=
  c.isAlphanum || c == '_'

/-- The four characters match `202[0-9]` or `203[0]` (script.js line 377). -/
def yearAt (c1 c2 c3 c4 : Char) : Bool :=
  (c1 == '2' && c2 == '0' && c3 == '2' && c4.isDigit) ||
  (c1 == '2' && c2 == '0' && c3 == '3' && c4 == '0')

/-- Scan for `\b(202[0-9]|203[0])\b`: a recent-year token with word
boundaries on both sides. `prev` is the character just before the
current position (none at the start of the string). -/
def recentYearGo (prev : Option Char) : List Char → Bool
  | [] => false
  | c1 :: rest =>
    (match rest with
     | c2 :: c3 :: c4 :: rest2 =>
       yearAt c1 c2 c3 c4 &&
       (match prev with | none => true | some p => !wordCharB p) &&
       (match rest2 with | [] => true | n :: _ => !wordCharB n)
     | _ => false)
    || recentYearGo (some c1) rest

/-- `yearPattern.test(lowerQuery)`, script.js lines 377-378. -/
def hasRecentYearFn (lc : List Char) : Bool :=
  recentYearGo none lc

/-- JavaScript `.` in a regex without the `s` flag: any char except a
line terminator. -/
def dotOk (c : Char) : Bool :=
  !(c == '\n' || c == '\r' || c == Char.ofNat 0x2028 || c == Char.ofNat 0x2029)

/-- After a matched first literal, `.*b`: find `b` further right with no
line terminator in between. -/
def seqFind (b : List Char) : List Char → Bool
  | [] => b.isEmpty
  | c :: rest => b.isPrefixOf (c :: rest) || (dotOk c && seqFind b rest)

/-- Unanchored scan for `a.*b` (used by the event-query regex). -/
def seqScan (a b : List Char) : List Char → Bool
  | [] => false
  | c :: rest =>
    (a.isPrefixOf (c :: rest) && seqFind b (List.drop a.length (c :: rest)))
    || seqScan a b rest

/-- `eventPattern.test(lowerQuery)` for
`(what happened|what's happening|did.*happen|has.*happened|will.*happen)`
(script.js lines 415-416). -/
def isEventQueryFn (lc : List Char) : Bool :=
  hasSub "what happened".data lc ||
  hasSub "what\x27s happening".data lc ||
  seqScan "did".data "happen".data lc ||
  seqScan "has".data "happened".data lc ||
  seqScan "will".data "happen".data lc

/-- After one mandatory whitespace char, the rest of `\s+` then one of
the target literals (all targets start with a non-whitespace letter, so
the greedy `\s+` must consume the whole whitespace run). -/
def afterWsThen (targets : List String) : List Char → Bool
  | [] => false
  | c :: rest => wsChar c && targets.any (fun t => t.data.isPrefixOf (rest.dropWhile wsChar))

/-- Unanchored scan for `(first…)\s+(second…)` — the shape of both the
comparative and the location regexes. -/
def pairScan (firsts seconds : List String) : List Char → Bool
  | [] => false
  | c :: rest =>
    firsts.any
      (fun a => a.data.isPrefixOf (c :: rest) &&
        afterWsThen seconds (List.drop a.data.length (c :: rest)))
    || pairScan firsts seconds rest

/-- `comparativePattern.test(lowerQuery)`, script.js line 411. -/
def hasComparativeFn (lc : List Char) : Bool :=
  pairScan
    ["best", "worst", "top", "fastest", "slowest", "biggest", "smallest",
     "most", "least", "better", "worse"]
    ["in", "of", "for", "at"] lc

/-- `statsPattern.test(lowerQuery)`, script.js line 419 (plain
substring alternation). -/
def needsStatsFn (lc : List Char) : Bool :=
  containsAny ["how many", "how much", "number of", "percentage",
               "statistics", "data", "count"] lc

/-- `locationPattern.test(lowerQuery)`, script.js line 423. -/
def hasLocationFn (lc : List Char) : Bool :=
  pairScan
    ["in", "at", "near", "around"]
    ["new york", "london", "tokyo", "paris", "beijing", "india", "usa",
     "china", "europe", "asia"] lc

/-- `lowerQuery.startsWith('/')`, script.js line 437. -/
def isCommandFn (lc : List Char) : Bool :=
  match lc with
  | '/' :: _ => true
  | _ => false

/-- Counts maximal runs of non-whitespace characters; `inWord` says
whether the previous character was part of a run. -/
def countTokensAux (inWord : Bool) : List Char → Nat
  | [] => 0
  | c :: rest =>
    if wsChar c then countTokensAux false rest
    else (if inWord then 0 else 1) + countTokensAux true rest

/-- `lowerQuery.split(/\s+/).length` on the (already trimmed) normalized
query. JavaScript quirk faithfully preserved: splitting the empty
string yields `[""]`, so the count is 1, not 0. -/
def wordCountFn (lc : List Char) : Nat :=
  if lc.isEmpty then 1 else countTokensAux false lc

/-- The record of lexical flags computed at script.js lines 364-437
(the spec calls it FeatureSet). -/
structure FeatureSet where
  hasTimeIndicator : Bool
  hasRecentYear : Bool
  isQuestion : Bool
  hasNamedEntity : Bool
  needsRealTimeData : Bool
  hasComparative : Bool
  isEventQuery : Bool
  needsStats : Bool
  hasLocation : Bool
  isCreativeRequest : Bool
  isCommand : Bool
  wordCount : Nat
  deriving Repr, DecidableEq

/-- The feature extraction performed inside `shouldPerformWebSearch`
(script.js lines 364-437), one field per detection rule.
`isCreativeRequest` carries the `&& !hasTimeIndicator` override from
line 434. -/
def extractFeatures (q : String) : FeatureSet :=
  let lc := normalizeChars q
  { hasTimeIndicator := containsAny timeKeywords lc
    hasRecentYear := hasRecentYearFn lc
    isQuestion := isQuestionFn lc
    hasNamedEntity := containsAny namedEntities lc
    needsRealTimeData := containsAny realTimeIndicators lc
    hasComparative := hasComparativeFn lc
    isEventQuery := isEventQueryFn lc
    needsStats := needsStatsFn lc
    hasLocation := hasLocationFn lc
    isCreativeRequest := containsAny noSearchKeywords lc && !(containsAny timeKeywords lc)
    isCommand := isCommandFn lc
    wordCount := wordCountFn lc }

/-- The scoring accumulation of script.js lines 439-455, in source
order (`searchScore += ...` / `searchScore -= ...`). -/
def scoreOfFeatures (f : FeatureSet) : Int :=
  let s : Int := 0
  let s := if f.hasTimeIndicator then s + 40 else s
  let s := if f.hasRecentYear then s + 30 else s
  let s := if f.needsRealTimeData then s + 35 else s
  let s := if f.isEventQuery then s + 35 else s
  let s := if f.hasNamedEntity && f.isQuestion then s + 25 else s
  let s := if f.hasComparative then s + 20 else s
  let s := if f.needsStats then s + 20 else s
  let s := if f.hasLocation && f.isQuestion then s + 15 else s
  let s := if f.isQuestion && decide (4 < f.wordCount) then s + 10 else s
  let s := if f.isCreativeRequest then s - 50 else s
  let s := if f.isCommand then s - 100 else s
  let s := if f.wordCount < 3 then s - 20 else s
  s

/-- `searchScore` for a query, script.js lines 439-455. -/
def searchScore (q : String) : Int :=
  scoreOfFeatures (extractFeatures q)

/-- `shouldPerformWebSearch(query)`: `searchScore >= 30`
(script.js lines 457-463). -/
def shouldPerformWebSearch (q : String) : Bool :=
  decide (30 ≤ searchScore q)

/-! ## Search aggregator and source lookups (script.js lines 466-574) -/

/-- The optional per-source result (`{snippet, url}` or `null`). A
missing / `undefined` URL field is modelled as the empty string, which
is exactly what the JavaScript truthiness test on `ddgResult.value.url`
distinguishes. -/
structure SearchResult where
  snippet : String
  url : String
  deriving Repr, DecidableEq

/-- `l.contains` specialised to finding a closing `>`. -/
def hasGt (l : List Char) : Bool :=
  l.contains '>'

/-- Drop characters up to and including the first `>`. -/
def dropThroughGt : List Char → List Char
  | [] => []
  | c :: rest => if c == '>' then rest else dropThroughGt rest

/-- Worker for `stripHtml`. Every step consumes at least one input
character, so a fuel of `length + 1` can never run out; the fuel only
makes the recursion structural. -/
def stripHtmlGo : Nat → List Char → List Char
  | 0, l => l
  | _ + 1, [] => []
  | fuel + 1, c :: rest =>
    if c == '<' then
      if hasGt rest then stripHtmlGo fuel (dropThroughGt rest) else c :: rest
    else c :: stripHtmlGo fuel rest

/-- `snippet.replace(/<[^>]*>/g, '')` (script.js line 537): each `<`
that has a later `>` swallows everything through that `>`; a `<` with
no closing `>` is kept verbatim (the regex cannot match there, and no
later match is possible since no `>` remains). -/
def stripHtml (l : List Char) : List Char :=
  stripHtmlGo (l.length + 1) l

/-- Characters `encodeURIComponent` leaves unescaped. -/
def isUnreservedURI (c : Char) : Bool :=
  c.isAlphanum || c == '-' || c == '_' || c == '.' || c == '!' ||
  c == '~' || c == '*' || c == Char.ofNat 39 || c == '(' || c == ')'

/-- Uppercase hexadecimal digit. -/
def hexDigitU (n : Nat) : Char :=
  if n < 10 then Char.ofNat (48 + n) else Char.ofNat (55 + n)

/-- UTF-8 bytes of one code point. -/
def utf8BytesOf (c : Char) : List Nat :=
  let n := c.toNat
  if n < 128 then [n]
  else if n < 2048 then [192 + n / 64, 128 + n % 64]
  else if n < 65536 then [224 + n / 4096, 128 + (n / 64) % 64, 128 + n % 64]
  else [240 + n / 262144, 128 + (n / 4096) % 64, 128 + (n / 64) % 64, 128 + n % 64]

/-- Percent-encoding of one character, per `encodeURIComponent`. -/
def percentEncodeChar (c : Char) : List Char :=
  if isUnreservedURI c then [c]
  else (utf8BytesOf c).flatMap (fun b => ['%', hexDigitU (b / 16), hexDigitU (b % 16)])

/-- Model of the JavaScript built-in `encodeURIComponent`. -/
def encodeURIComponent (s : String) : String :=
  ⟨s.data.flatMap percentEncodeChar⟩

/-- One hit of the Wikipedia search API response (`data.query.search`
entries), as used by the code: `title` and HTML-bearing `snippet`. -/
structure WikiHit where
  title : String
  snippet : String
  deriving Repr, DecidableEq

/-- `searchWikipedia` (script.js lines 529-547) on a successfully
parsed response, as a function of the hit list: empty list yields
`null`; otherwise the first hit's snippet is HTML-stripped, truncated
with `substring(0, 300) + '...'`, and the article URL is built from
the hit title. Transport errors are modelled by the caller passing a
`null` (`none`) result, exactly as the `catch` at line 543 produces. -/
def searchWikipedia (hits : List WikiHit) : Option SearchResult :=
  match hits with
  | [] => none
  | h :: _ =>
    let stripped := stripHtml h.snippet.data
    some { snippet := (⟨stripped.take 300⟩ : String) ++ "...",
           url := "https://en.wikipedia.org/wiki/" ++ encodeURIComponent h.title }

/-- One entry of the DuckDuckGo `RelatedTopics` list; absent `Text` or
`FirstURL` fields are modelled as the empty string (JavaScript
truthiness on them is an emptiness test). -/
structure DDGTopic where
  Text : String
  FirstURL : String
  deriving Repr, DecidableEq

/-- The fields of the DuckDuckGo instant-answer response the code
reads. -/
structure DDGResponse where
  AbstractText : String
  AbstractURL : String
  RelatedTopics : List DDGTopic
  deriving Repr, DecidableEq

/-- `searchDuckDuckGo` (script.js lines 549-574) on a successfully
parsed response: prefer a non-empty `AbstractText` (truncated to 300
chars plus ellipsis, URL from `AbstractURL`), else the first related
topic's `Text`/`FirstURL`, else `null`. -/
def searchDuckDuckGo (data : DDGResponse) : Option SearchResult :=
  if data.AbstractText ≠ "" then
    some { snippet := (⟨data.AbstractText.data.take 300⟩ : String) ++ "...",
           url := data.AbstractURL }
  else
    match data.RelatedTopics with
    | [] => none
    | topic :: _ =>
      if topic.Text ≠ "" then
        some { snippet := (⟨topic.Text.data.take 300⟩ : String) ++ "...",
               url := topic.FirstURL }
      else none

/-- The labelled Wikipedia snippet block appended at script.js line 481. -/
def wikiBlock (w : SearchResult) : String :=
  "\n\n**From Wikipedia:**\n" ++ w.snippet ++ "\n"

/-- The labelled DuckDuckGo snippet block appended at script.js line 487. -/
def ddgBlock (d : SearchResult) : String :=
  "\n\n**From DuckDuckGo:**\n" ++ d.snippet ++ "\n"

/-- The Wikipedia citation entry pushed at script.js line 482. -/
def wikiCitation (w : SearchResult) : String :=
  "[Wikipedia](" ++ w.url ++ ")"

/-- The DuckDuckGo citation entry pushed at script.js line 488. -/
def ddgCitation (d : SearchResult) : String :=
  "[Source](" ++ d.url ++ ")"

/-- The merge step of `performWebSearch` (script.js lines 476-489):
starting from an empty context and source list, append the Wikipedia
block and citation when that settled lookup fulfilled with a value,
then the DuckDuckGo block — its citation is pushed only when its `url`
is truthy (line 488). -/
def mergeSearch (wiki ddg : Option SearchResult) : String × List String :=
  let ctx0 := ""
  let src0 : List String := []
  let ctx1 := match wiki with | some w => ctx0 ++ wikiBlock w | none => ctx0
  let src1 := match wiki with | some w => src0 ++ [wikiCitation w] | none => src0
  let ctx2 := match ddg with | some d => ctx1 ++ ddgBlock d | none => ctx1
  let src2 :=
    match ddg with
    | some d => if d.url ≠ "" then src1 ++ [ddgCitation d] else src1
    | none => src1
  (ctx2, src2)

/-- The template literal `enrichedPrompt` of script.js lines 502-514,
transcribed verbatim. -/
def enrichedPrompt (query ctx : String) : String :=
  "You are Aero AI. I have searched the web for: \"" ++ query ++ "\"\n\n" ++
  "Here is the real-time information I found:\n" ++ ctx ++
  "\n\nYour task: Use this web information as context, but generate your OWN comprehensive, well-structured answer. \n" ++
  "- Synthesize the information naturally\n" ++
  "- Add your own insights and explanations\n" ++
  "- Make it conversational and easy to understand\n" ++
  "- Cite sources when referencing specific facts\n" ++
  "- If the web info is incomplete, acknowledge it and provide what you know\n\n" ++
  "User\x27s question: " ++ query

/-- The prompt `performWebSearch` hands to `callApi` at line 516 on its
non-throwing path (which includes the case of two settled-but-empty
lookups, since `Promise.allSettled` never rejects): always the
enriched prompt built from whatever context was merged. -/
def performWebSearchPrompt (query : String) (wiki ddg : Option SearchResult) : String :=
  enrichedPrompt query (mergeSearch wiki ddg).1

/-! ## Conversation store and chat submission pipeline
(script.js lines 33-36, 58-145, 325-361, 789-814) -/

/-- One conversation turn, `{role, content}` as pushed by
`addToHistory` (script.js line 143). -/
structure Turn where
  role : String
  content : String
  deriving Repr, DecidableEq

/-- One saved chat, `{id, title, date, messages}` as created by
`createNewChat` (script.js lines 44-50). -/
structure Chat where
  id : String
  title : String
  date : String
  messages : List Turn
  deriving Repr, DecidableEq

/-- JSON values, the common currency of `JSON.stringify` /
`JSON.parse`. `localStorage` persistence is modelled at this level:
`JSON.stringify` maps the chat map to a `JVal` and `JSON.parse` is the
shape-directed read-back that `loadAllChats` / `loadChat` perform on
the parsed value. Object fields keep insertion order, as JavaScript
guarantees for the non-numeric keys used here. -/
inductive JVal where
  | jstr (s : String)
  | jnum (n : Int)
  | jbool (b : Bool)
  | jnull
  | jarr (elts : List JVal)
  | jobj (fields : List (String × JVal))

/-- Property access on a parsed JSON object. -/
def lookupField (fs : List (String × JVal)) (k : String) : Option JVal :=
  match fs.find? (fun p => p.1 == k) with
  | some p => some p.2
  | none => none

/-- `JSON.stringify` of one turn. -/
def encodeTurn (t : Turn) : JVal :=
  .jobj [("role", .jstr t.role), ("content", .jstr t.content)]

/-- `JSON.stringify` of one chat record. -/
def encodeChat (c : Chat) : JVal :=
  .jobj [("id", .jstr c.id), ("title", .jstr c.title),
         ("date", .jstr c.date), ("messages", .jarr (c.messages.map encodeTurn))]

/-- `JSON.stringify(allChats)` — `saveAllChats`, script.js line 102. -/
def encodeChats (m : List (String × Chat)) : JVal :=
  .jobj (m.map fun p => (p.1, encodeChat p.2))

/-- Reading one turn back from the parsed store (the fields `loadChat`
and `callApi` consume: `msg.role`, `msg.content`). -/
def decodeTurn : JVal → Option Turn
  | .jobj fs =>
    match lookupField fs "role", lookupField fs "content" with
    | some (.jstr r), some (.jstr c) => some ⟨r, c⟩
    | _, _ => none
  | _ => none

/-- Reading a turn array back in order. -/
def decodeTurns : List JVal → Option (List Turn)
  | [] => some []
  | j :: rest =>
    match decodeTurn j, decodeTurns rest with
    | some t, some ts => some (t :: ts)
    | _, _ => none

/-- Reading one chat back from the parsed store (the fields the code
consumes: `chat.id`, `chat.title`, `chat.date`, `chat.messages`). -/
def decodeChat : JVal → Option Chat
  | .jobj fs =>
    match lookupField fs "id", lookupField fs "title",
          lookupField fs "date", lookupField fs "messages" with
    | some (.jstr i), some (.jstr t), some (.jstr d), some (.jarr ms) =>
      match decodeTurns ms with
      | some ts => some ⟨i, t, d, ts⟩
      | none => none
    | _, _, _, _ => none
  | _ => none

/-- Reading the chat map back entry by entry, preserving key order. -/
def decodeChatsGo : List (String × JVal) → Option (List (String × Chat))
  | [] => some []
  | (k, v) :: rest =>
    match decodeChat v, decodeChatsGo rest with
    | some c, some cs => some ((k, c) :: cs)
    | _, _ => none

/-- `JSON.parse` of the persisted blob followed by the shape-directed
reads of `loadAllChats` (script.js lines 105-127). -/
def decodeChats : JVal → Option (List (String × Chat))
  | .jobj fs => decodeChatsGo fs
  | _ => none

/-- `allChats[chatId]` read access. The chat map is an insertion-ordered
key-value list, like a JavaScript object with string keys. -/
def lookupChat (m : List (String × Chat)) (k : String) : Option Chat :=
  match m with
  | [] => none
  | p :: rest => if p.1 == k then some p.2 else lookupChat rest k

/-- `allChats[chatId] = chat` when the key is already present (the only
case `saveCurrentChat` reaches, thanks to its guard). -/
def setChat (m : List (String × Chat)) (k : String) (c : Chat) : List (String × Chat) :=
  m.map (fun p => if p.1 == k then (p.1, c) else p)

/-- The title auto-generation of `saveCurrentChat`
(script.js lines 88-94): a still-untitled chat takes the first user
message's first 40 characters, with an ellipsis when it was longer. -/
def autoTitle (c : Chat) (history : List Turn) : String :=
  if c.title = "New chat" ∧ ¬history.isEmpty then
    match history.find? (fun t => t.role == "user") with
    | some t =>
      (⟨t.content.data.take 40⟩ : String) ++
      (if 40 < t.content.data.length then "..." else "")
    | none => c.title
  else c.title

/-- The mutable application state of script.js lines 25-36 that the
chat pipeline touches: the in-flight guard, the typing-indicator
visibility (`typingIndicator` hidden class, toggled by `updateStatus`),
the current conversation, the chat map, and the persisted
`localStorage` blob (`none` when the key is absent). -/
structure AppState where
  isGenerating : Bool
  statusHidden : Bool
  conversationHistory : List Turn
  currentChatId : Option String
  allChats : List (String × Chat)
  store : Option JVal

/-- `saveCurrentChat` (script.js lines 83-99): when a current chat
exists, copy the conversation into it, auto-title it, and persist the
whole map via `saveAllChats`. -/
def saveCurrentChat (st : AppState) : AppState :=
  match st.currentChatId with
  | none => st
  | some id =>
    match lookupChat st.allChats id with
    | none => st
    | some c =>
      let c2 := { c with messages := st.conversationHistory,
                         title := autoTitle c st.conversationHistory }
      let chats2 := setChat st.allChats id c2
      { st with allChats := chats2, store := some (encodeChats chats2) }

/-- `addToHistory` (script.js lines 142-145): push the turn and save. -/
def addToHistory (st : AppState) (role content : String) : AppState :=
  saveCurrentChat { st with conversationHistory := st.conversationHistory ++ [⟨role, content⟩] }

/-- `String.prototype.trim` on a whole string. -/
def jsTrim (s : String) : String :=
  ⟨trimList s.data⟩

/-- `message.toLowerCase().startsWith('/image')`, script.js line 338. -/
def isImageGenOf (message : String) : Bool :=
  "/image".data.isPrefixOf (message.data.map jsToLower)

/-- `data.text.trim().toLowerCase().startsWith('/image')`,
script.js line 796. -/
def startsWithSlashImage (s : String) : Bool :=
  "/image".data.isPrefixOf ((trimList s.data).map jsToLower)

/-- The JSON body the LLM / image endpoint answers with
(script.js lines 789-814): a `status` field plus `text` or `imageUrl`. -/
structure ApiResponse where
  status : String
  text : String
  imageUrl : String
  deriving Repr, DecidableEq

/-- What the `try` block of `handleChatSubmit` did: either some step
threw (the `catch` at line 354 then only displays an apology message),
or an API response was obtained and `handleResponse` ran on it;
`nested` is the response of the follow-up image call `handleResponse`
itself makes when a successful chat reply starts with `/image`
(script.js lines 796-805). -/
inductive TryOutcome where
  | threw
  | completed (resp : ApiResponse) (nested : ApiResponse)

/-- `handleResponse` (script.js lines 789-814), restricted to its
effect on the application state: an assistant turn is recorded via
`addToHistory` only on a `'success'` status — `'[Generated Image]'`
for image responses, the reply text otherwise; every failure branch
only displays a message and leaves the history alone. -/
def handleResponse (st : AppState) (data : ApiResponse) (isImageGen : Bool)
    (nested : ApiResponse) : AppState :=
  if data.status = "success" then
    if isImageGen then
      addToHistory st "assistant" "[Generated Image]"
    else if startsWithSlashImage data.text then
      if nested.status = "success" then
        addToHistory st "assistant" "[Generated Image]"
      else st
    else
      addToHistory st "assistant" data.text
  else st

/-- The accepted-submission prefix of `handleChatSubmit`
(script.js lines 331-336), everything that happens before the `try`
block and therefore before any network call: display the message,
append the user turn to the history and persist it, clear the input,
raise the in-flight guard, show the status indicator. -/
def recordUserTurn (st : AppState) (message : String) : AppState :=
  { addToHistory st "user" message with isGenerating := true, statusHidden := false }

/-- `handleChatSubmit` (script.js lines 325-361) as a state transition
parametrised by the outcome of its `try` block: rejected submissions
(empty trimmed message, or a generation already in flight) leave the
state untouched; accepted ones record the user turn first, run the
pipeline, and the `finally` at lines 357-360 unconditionally lowers
the in-flight guard and hides the status indicator
(`updateStatus('', true)`). -/
def handleChatSubmit (st : AppState) (input : String) (outcome : TryOutcome) : AppState :=
  let message := jsTrim input
  if message = "" ∨ st.isGenerating then st
  else
    let st1 := recordUserTurn st message
    let isImageGen := isImageGenOf message
    let st2 :=
      match outcome with
      | .threw => st1
      | .completed resp nested => handleResponse st1 resp isImageGen nested
    { st2 with isGenerating := false, statusHidden := true }

/-- Appending a list of turns through `addToHistory`, one by one. -/
def appendTurns (st : AppState) (ts : List Turn) : AppState :=
  ts.foldl (fun s t => addToHistory s t.role t.content) st

/-- Reloading one session from the persisted blob: `loadAllChats`
parses the stored JSON (script.js lines 105-127) and `loadChat` copies
the session's `messages` into the live conversation (lines 58-81).
`none` models every path on which the session cannot be recovered
(no stored blob, parse failure, unknown id). -/
def reloadSession (store : Option JVal) (id : String) : Option (List Turn) :=
  match store with
  | none => none
  | some j =>
    match decodeChats j with
    | none => none
    | some chats =>
      match lookupChat chats id with
      | some chat => some chat.messages
      | none => none

/-! ## Theorems -/

theorem ite_add_acc (c : Prop) [Decidable c] (s k : Int) :
    (if c then s + k else s) = s + (if c then k else 0) := by
  split <;> simp

theorem ite_sub_acc (c : Prop) [Decidable c] (s k : Int) :
    (if c then s - k else s) = s + (if c then -k else 0) := by
  split <;> simp [sub_eq_add_neg]

theorem scoreOfFeatures_eq_sum (f : FeatureSet) :
    scoreOfFeatures f =
      (if f.hasTimeIndicator then 40 else 0) +
      (if f.hasRecentYear then 30 else 0) +
      (if f.needsRealTimeData then 35 else 0) +
      (if f.isEventQuery then 35 else 0) +
      (if f.hasNamedEntity && f.isQuestion then 25 else 0) +
      (if f.hasComparative then 20 else 0) +
      (if f.needsStats then 20 else 0) +
      (if f.hasLocation && f.isQuestion then 15 else 0) +
      (if f.isQuestion && decide (4 < f.wordCount) then 10 else 0) +
      (if f.isCreativeRequest then -50 else 0) +
      (if f.isCommand then -100 else 0) +
      (if f.wordCount < 3 then -20 else 0) := by
  simp only [scoreOfFeatures, ite_add_acc, ite_sub_acc, zero_add]

/-- C2: for every query the search score is exactly the order-insensitive
sum of the twelve weighted feature contributions (+40 time indicator,
+30 recent year, +35 real-time data, +35 event query, +25 named entity
and question, +20 comparative, +20 stats, +15 location and question,
+10 question with more than 4 words, −50 creative request, −100
command, −20 fewer than 3 words), and the search decision holds
exactly when that score is at least 30. -/
theorem search_score_weighted_sum (q : String) :
    searchScore q =
      (if (extractFeatures q).hasTimeIndicator then 40 else 0) +
      (if (extractFeatures q).hasRecentYear then 30 else 0) +
      (if (extractFeatures q).needsRealTimeData then 35 else 0) +
      (if (extractFeatures q).isEventQuery then 35 else 0) +
      (if (extractFeatures q).hasNamedEntity && (extractFeatures q).isQuestion then 25 else 0) +
      (if (extractFeatures q).hasComparative then 20 else 0) +
      (if (extractFeatures q).needsStats then 20 else 0) +
      (if (extractFeatures q).hasLocation && (extractFeatures q).isQuestion then 15 else 0) +
      (if (extractFeatures q).isQuestion && decide (4 < (extractFeatures q).wordCount) then 10 else 0) +
      (if (extractFeatures q).isCreativeRequest then -50 else 0) +
      (if (extractFeatures q).isCommand then -100 else 0) +
      (if (extractFeatures q).wordCount < 3 then -20 else 0) ∧
    (shouldPerformWebSearch q = true ↔ 30 ≤ searchScore q) := by
  constructor
  · exact scoreOfFeatures_eq_sum (extractFeatures q)
  · simp [shouldPerformWebSearch]

/-- A command-prefixed query cannot start with an interrogative opener,
so `isQuestion` is false for it. -/
theorem isQuestionFn_slash (t : List Char) : isQuestionFn ('/' :: t) = false := rfl

theorem isCommandFn_slash (t : List Char) : isCommandFn ('/' :: t) = true := rfl

/-- C1 (counterexample): a slash query stacking a time indicator, a
recent year, a real-time keyword, an event phrase, a comparative and a
stats phrase scores 40+30+35+35+20+20−100 = 80 ≥ 30, so
`shouldPerformWebSearch` returns true even though the normalized query
starts with the command prefix. -/
theorem command_query_search_counterexample :
    (normalizeChars "/latest 2024 price what happened best in how many").take 1 = ['/'] ∧
    shouldPerformWebSearch "/latest 2024 price what happened best in how many" = true := by
  constructor
  · decide
  · decide

/-- C1 (amended): for every query whose normalized form starts with the
command prefix `/`, `isQuestion` is false (the query cannot start with
an interrogative opener), so the three question-dependent bonuses never
apply, and `shouldPerformWebSearch` returns false whenever the six
remaining positive contributions (time indicator +40, recent year +30,
real-time data +35, event query +35, comparative +20, stats +20) sum to
less than 130 — i.e. unless the query stacks enough lexical matches to
overcome the −100 command penalty. -/
theorem command_query_search_bound (q : String)
    (hc : (normalizeChars q).take 1 = ['/'])
    (hpos : (if (extractFeatures q).hasTimeIndicator then (40 : Int) else 0) +
            (if (extractFeatures q).hasRecentYear then 30 else 0) +
            (if (extractFeatures q).needsRealTimeData then 35 else 0) +
            (if (extractFeatures q).isEventQuery then 35 else 0) +
            (if (extractFeatures q).hasComparative then 20 else 0) +
            (if (extractFeatures q).needsStats then 20 else 0) < 130) :
    shouldPerformWebSearch q = false := by
  obtain ⟨t, ht⟩ : ∃ t, normalizeChars q = '/' :: t := by
    cases h : normalizeChars q with
    | nil => rw [h] at hc; simp at hc
    | cons a t =>
      rw [h] at hc
      simp [List.take] at hc
      exact ⟨t, by rw [hc]⟩
  have hq : (extractFeatures q).isQuestion = false := by
    simp only [extractFeatures]
    rw [ht]
    exact isQuestionFn_slash t
  have hcm : (extractFeatures q).isCommand = true := by
    simp only [extractFeatures]
    rw [ht]
    exact isCommandFn_slash t
  refine decide_eq_false ?_
  rw [searchScore, scoreOfFeatures_eq_sum]
  generalize hf : extractFeatures q = f at hq hcm hpos
  rcases f with ⟨ti, ry, qn, ne, rt, cp, ev, sq, lo, cr, cm, wc⟩
  dsimp only at hq hcm hpos ⊢
  subst hq hcm
  simp only [Bool.and_false, Bool.false_and, Bool.false_eq_true, if_false]
  split_ifs at hpos ⊢ <;> omega

theorem command_query_search_bound_witness :
    (normalizeChars "/image a cat").take 1 = ['/'] ∧
    ((if (extractFeatures "/image a cat").hasTimeIndicator then (40 : Int) else 0) +
     (if (extractFeatures "/image a cat").hasRecentYear then 30 else 0) +
     (if (extractFeatures "/image a cat").needsRealTimeData then 35 else 0) +
     (if (extractFeatures "/image a cat").isEventQuery then 35 else 0) +
     (if (extractFeatures "/image a cat").hasComparative then 20 else 0) +
     (if (extractFeatures "/image a cat").needsStats then 20 else 0) < 130) ∧
    shouldPerformWebSearch "/image a cat" = false :=
  ⟨by decide, by decide, command_query_search_bound "/image a cat" (by decide) (by decide)⟩

/-- C4: the scorer is a pure function of the normalized query text —
two queries that agree after lowercasing and trimming get identical
feature sets, scores and search decisions, and extracting features
twice from the same string yields identical values. -/
theorem search_scoring_deterministic (q1 q2 : String)
    (h : normalizeChars q1 = normalizeChars q2) :
    extractFeatures q1 = extractFeatures q2 ∧
    searchScore q1 = searchScore q2 ∧
    shouldPerformWebSearch q1 = shouldPerformWebSearch q2 ∧
    extractFeatures q1 = extractFeatures q1 := by
  have hf : extractFeatures q1 = extractFeatures q2 := by
    simp only [extractFeatures, h]
  refine ⟨hf, ?_, ?_, rfl⟩
  · simp only [searchScore, hf]
  · simp only [shouldPerformWebSearch, searchScore, hf]

theorem search_scoring_deterministic_witness :
    normalizeChars "  What IS the Bitcoin PRICE today  " =
      normalizeChars "what is the bitcoin price today" ∧
    searchScore "  What IS the Bitcoin PRICE today  " =
      searchScore "what is the bitcoin price today" :=
  ⟨by decide,
   (search_scoring_deterministic "  What IS the Bitcoin PRICE today  "
     "what is the bitcoin price today" (by decide)).2.1⟩

/-- C5 (counterexample): on the empty input string the word count the
scorer computes is not 0 — `''.split(/\s+/)` yields `['']`, of
length 1. -/
theorem empty_query_wordcount_counterexample :
    ¬ (extractFeatures "").wordCount = 0 := by decide

/-- C5 (amended): on the empty input string every boolean feature flag
is false, and the word count is 1 (JavaScript splitting of the empty
string yields one empty token, not zero tokens; the search decision is
unaffected, since either count is below the short-query threshold 3). -/
theorem empty_query_features :
    (extractFeatures "").hasTimeIndicator = false ∧
    (extractFeatures "").hasRecentYear = false ∧
    (extractFeatures "").isQuestion = false ∧
    (extractFeatures "").hasNamedEntity = false ∧
    (extractFeatures "").needsRealTimeData = false ∧
    (extractFeatures "").hasComparative = false ∧
    (extractFeatures "").isEventQuery = false ∧
    (extractFeatures "").needsStats = false ∧
    (extractFeatures "").hasLocation = false ∧
    (extractFeatures "").isCreativeRequest = false ∧
    (extractFeatures "").isCommand = false ∧
    (extractFeatures "").wordCount = 1 := by decide

/-- C3 (counterexample): with both lookups yielding nothing the merged
context and citation list are indeed empty, but the prompt the handler
then sends is not the unenriched original query — the code always
sends the enriched template (the claimed fallback does not happen on
this path, because `Promise.allSettled` never rejects). -/
theorem empty_search_context_counterexample :
    mergeSearch none none = ("", []) ∧
    performWebSearchPrompt "test" none none ≠ "test" := by
  constructor
  · rfl
  · decide

/-- C3 (amended): whenever both source lookups of the aggregator fail
or yield no result, the resulting SearchContext is the empty string and
the citation list is empty, and the caller then sends the LLM the
enriched prompt built around that empty search context rather than
falling back to the unenriched original query (the unenriched fallback
happens only when a step of the search pipeline throws, which settled
empty lookups do not cause). -/
theorem empty_search_context_prompt (q : String) :
    mergeSearch none none = ("", []) ∧
    performWebSearchPrompt q none none = enrichedPrompt q "" :=
  ⟨rfl, rfl⟩

/-- C6 (counterexample): a present DuckDuckGo result whose `url` field
is empty — produced, for instance, by a response with a non-empty
`AbstractText` and an empty `AbstractURL` — contributes its labeled
snippet block to the context but no citation entry, contradicting the
claim that every present result contributes one of each. -/
theorem merge_citation_counterexample :
    searchDuckDuckGo ⟨"abc", "", []⟩ = some ⟨"abc...", ""⟩ ∧
    (mergeSearch none (searchDuckDuckGo ⟨"abc", "", []⟩)).1 ≠ "" ∧
    (mergeSearch none (searchDuckDuckGo ⟨"abc", "", []⟩)).2 = [] := by
  refine ⟨rfl, ?_, rfl⟩
  decide

/-- C6 (amended): the aggregator merges in fixed order — Wikipedia
block first, DuckDuckGo block second — with every present result
contributing one labeled snippet block and an absent one contributing
nothing; the Wikipedia result always also contributes one citation
entry, while the DuckDuckGo result contributes a citation entry exactly
when its `url` is non-empty (truthy). -/
theorem merge_order_and_blocks (wiki ddg : Option SearchResult) :
    mergeSearch wiki ddg =
      ((match wiki with | some w => wikiBlock w | none => "") ++
       (match ddg with | some d => ddgBlock d | none => ""),
       (match wiki with | some w => [wikiCitation w] | none => []) ++
       (match ddg with
        | some d => if d.url ≠ "" then [ddgCitation d] else []
        | none => [])) := by
  cases wiki <;> cases ddg <;> (simp [mergeSearch]; try (split_ifs <;> simp))

theorem ellipsis_len (l : List Char) :
    ((⟨l.take 300⟩ : String) ++ "...").length ≤ 303 := by
  show ((l.take 300) ++ "...".data).length ≤ 303
  rw [List.length_append, List.length_take]
  have : ("...".data).length = 3 := rfl
  omega

/-- C7: every successful source lookup returns as snippet the first at
most 300 characters of the source text followed by the three-character
ellipsis marker — total length at most 303, always ending in `...` —
with HTML tags stripped first in the Wikipedia case, and the Wikipedia
URL is built from the first hit's title. -/
theorem snippet_truncation_spec (h : WikiHit) (hs : List WikiHit) (d : DDGResponse) :
    (∀ r : SearchResult, searchWikipedia (h :: hs) = some r →
        r.snippet = (⟨(stripHtml h.snippet.data).take 300⟩ : String) ++ "..." ∧
        r.snippet.length ≤ 303 ∧
        (∃ pre : String, r.snippet = pre ++ "...") ∧
        r.url = "https://en.wikipedia.org/wiki/" ++ encodeURIComponent h.title) ∧
    (∀ r : SearchResult, searchDuckDuckGo d = some r →
        (r.snippet = (⟨d.AbstractText.data.take 300⟩ : String) ++ "..." ∨
         ∃ topic rest, d.RelatedTopics = topic :: rest ∧
           r.snippet = (⟨topic.Text.data.take 300⟩ : String) ++ "...") ∧
        r.snippet.length ≤ 303 ∧
        (∃ pre : String, r.snippet = pre ++ "...")) := by
  constructor
  · intro r hr
    simp only [searchWikipedia] at hr
    injection hr with hr
    subst hr
    refine ⟨rfl, ellipsis_len _, ⟨_, rfl⟩, rfl⟩
  · intro r hr
    simp only [searchDuckDuckGo] at hr
    split at hr
    · injection hr with hr
      subst hr
      exact ⟨Or.inl rfl, ellipsis_len _, ⟨_, rfl⟩⟩
    · split at hr
      · exact absurd hr (by simp)
      · rename_i topic rest heq
        split at hr
        · injection hr with hr
          subst hr
          exact ⟨Or.inr ⟨topic, rest, heq, rfl⟩, ellipsis_len _, ⟨_, rfl⟩⟩
        · exact absurd hr (by simp)

theorem snippet_truncation_spec_witness :
    searchWikipedia [⟨"Lean", "a<b>c"⟩] =
      some ⟨"ac...", "https://en.wikipedia.org/wiki/Lean"⟩ ∧
    searchDuckDuckGo ⟨"hello", "https://x", []⟩ = some ⟨"hello...", "https://x"⟩ ∧
    (("ac..." : String).length ≤ 303 ∧ ∃ pre : String, ("ac..." : String) = pre ++ "...") ∧
    (("hello..." : String).length ≤ 303 ∧ ∃ pre : String, ("hello..." : String) = pre ++ "...") := by
  have hw : searchWikipedia [⟨"Lean", "a<b>c"⟩] =
      some ⟨"ac...", "https://en.wikipedia.org/wiki/Lean"⟩ := by decide
  have hd : searchDuckDuckGo ⟨"hello", "https://x", []⟩ = some ⟨"hello...", "https://x"⟩ := by
    decide
  have main := snippet_truncation_spec ⟨"Lean", "a<b>c"⟩ [] ⟨"hello", "https://x", []⟩
  exact ⟨hw, hd, ⟨(main.1 _ hw).2.1, (main.1 _ hw).2.2.1⟩,
         ⟨(main.2 _ hd).2.1, (main.2 _ hd).2.2⟩⟩

theorem decodeTurn_encodeTurn (t : Turn) : decodeTurn (encodeTurn t) = some t := by
  cases t
  rfl

theorem decodeTurns_encodeTurns (ts : List Turn) :
    decodeTurns (ts.map encodeTurn) = some ts := by
  induction ts with
  | nil => rfl
  | cons t ts ih =>
    simp only [List.map_cons, decodeTurns, decodeTurn_encodeTurn t, ih]

theorem decodeChat_encodeChat (c : Chat) : decodeChat (encodeChat c) = some c := by
  cases c with
  | mk i t d ms =>
    show (match decodeTurns (ms.map encodeTurn) with
          | some ts => some (Chat.mk i t d ts)
          | none => none) = some (Chat.mk i t d ms)
    rw [decodeTurns_encodeTurns]

theorem decodeChats_encodeChats (m : List (String × Chat)) :
    decodeChats (encodeChats m) = some m := by
  induction m with
  | nil => rfl
  | cons p rest ih =>
    obtain ⟨k, c⟩ := p
    show (match decodeChat (encodeChat c),
                decodeChatsGo (rest.map fun p => (p.1, encodeChat p.2)) with
          | some c2, some cs => some ((k, c2) :: cs)
          | _, _ => none) = some ((k, c) :: rest)
    rw [decodeChat_encodeChat,
        show decodeChatsGo (rest.map fun p => (p.1, encodeChat p.2)) =
          decodeChats (encodeChats rest) from rfl, ih]

theorem lookupChat_setChat (m : List (String × Chat)) (k : String) (c : Chat)
    (h : (lookupChat m k).isSome) :
    lookupChat (setChat m k c) k = some c := by
  induction m with
  | nil => simp [lookupChat] at h
  | cons p rest ih =>
    obtain ⟨a, b⟩ := p
    by_cases hk : (a == k) = true
    · simp [setChat, lookupChat, hk]
    · simp only [setChat, List.map_cons] at *
      simp only [lookupChat, hk, if_neg, Bool.not_eq_true] at h ⊢
      simpa [hk] using ih h

/-- After `addToHistory`, the new turn sits at the end of the live
history, the current chat's saved copy equals the live history, and
the persisted blob is the serialization of the whole chat map. -/
theorem addToHistory_saved (st : AppState) (id r ct : String)
    (h1 : st.currentChatId = some id)
    (h2 : (lookupChat st.allChats id).isSome) :
    (addToHistory st r ct).currentChatId = some id ∧
    (addToHistory st r ct).conversationHistory = st.conversationHistory ++ [⟨r, ct⟩] ∧
    (addToHistory st r ct).store = some (encodeChats (addToHistory st r ct).allChats) ∧
    (∃ c2, lookupChat (addToHistory st r ct).allChats id = some c2 ∧
      c2.messages = (addToHistory st r ct).conversationHistory) ∧
    (addToHistory st r ct).isGenerating = st.isGenerating ∧
    (addToHistory st r ct).statusHidden = st.statusHidden := by
  obtain ⟨c, hc⟩ : ∃ c, lookupChat st.allChats id = some c := by
    cases hx : lookupChat st.allChats id with
    | none => rw [hx] at h2; simp at h2
    | some c => exact ⟨c, rfl⟩
  unfold addToHistory saveCurrentChat
  dsimp only
  rw [h1]
  dsimp only
  rw [hc]
  dsimp only
  refine ⟨rfl, rfl, rfl, ⟨_, lookupChat_setChat _ _ _ h2, rfl⟩, rfl, rfl⟩

/-- Folding `addToHistory` over a list of turns preserves the saved
state shape and appends the turns in order. -/
theorem appendTurns_saved (ts : List Turn) (st : AppState) (id : String)
    (h1 : st.currentChatId = some id)
    (h2 : st.store = some (encodeChats st.allChats))
    (h3 : ∃ c, lookupChat st.allChats id = some c ∧ c.messages = st.conversationHistory) :
    (appendTurns st ts).currentChatId = some id ∧
    (appendTurns st ts).conversationHistory = st.conversationHistory ++ ts ∧
    (appendTurns st ts).store = some (encodeChats (appendTurns st ts).allChats) ∧
    (∃ c2, lookupChat (appendTurns st ts).allChats id = some c2 ∧
      c2.messages = (appendTurns st ts).conversationHistory) := by
  induction ts generalizing st with
  | nil =>
    exact ⟨h1, by simp [appendTurns], by simpa [appendTurns] using h2,
      by simpa [appendTurns] using h3⟩
  | cons t ts ih =>
    obtain ⟨c, hc, -⟩ := h3
    have hiso : (lookupChat st.allChats id).isSome := by simp [hc]
    have hA := addToHistory_saved st id t.role t.content h1 hiso
    have hstep : appendTurns st (t :: ts) =
        appendTurns (addToHistory st t.role t.content) ts := rfl
    obtain ⟨g1, g2, g3, g4⟩ := ih (addToHistory st t.role t.content) hA.1 hA.2.2.1 hA.2.2.2.1
    rw [hstep]
    refine ⟨g1, ?_, g3, g4⟩
    rw [g2, hA.2.1]
    cases t
    simp

/-- C9: appending N turns to the current session through
`addToHistory` and reloading that session from the persisted store
(`JSON.parse` of the saved blob followed by `loadChat`) reproduces the
same ordered turn sequence, with each turn's role and content
preserved exactly. -/
theorem history_roundtrip (st : AppState) (id : String) (ts : List Turn)
    (h1 : st.currentChatId = some id)
    (h2 : (lookupChat st.allChats id).isSome)
    (h3 : ts ≠ []) :
    reloadSession (appendTurns st ts).store id = some (st.conversationHistory ++ ts) := by
  cases ts with
  | nil => exact absurd rfl h3
  | cons t ts =>
    have hA := addToHistory_saved st id t.role t.content h1 h2
    have hstep : appendTurns st (t :: ts) =
        appendTurns (addToHistory st t.role t.content) ts := rfl
    obtain ⟨g1, g2, g3, g4⟩ :=
      appendTurns_saved ts (addToHistory st t.role t.content) id hA.1 hA.2.2.1 hA.2.2.2.1
    rw [hstep]
    obtain ⟨c2, hc2, hm2⟩ := g4
    unfold reloadSession
    rw [g3]
    dsimp only
    rw [decodeChats_encodeChats]
    dsimp only
    rw [hc2]
    dsimp only
    rw [hm2, g2, hA.2.1]
    cases t
    simp

theorem history_roundtrip_witness :
    (lookupChat [("c1", ⟨"c1", "New chat", "2024", []⟩)] "c1").isSome = true ∧
    ([(⟨"user", "hello"⟩ : Turn), ⟨"assistant", "hi there"⟩] ≠ []) ∧
    reloadSession (appendTurns
        ⟨false, true, [], some "c1", [("c1", ⟨"c1", "New chat", "2024", []⟩)], none⟩
        [⟨"user", "hello"⟩, ⟨"assistant", "hi there"⟩]).store "c1" =
      some [⟨"user", "hello"⟩, ⟨"assistant", "hi there"⟩] :=
  ⟨rfl, by decide, history_roundtrip _ "c1" _ rfl (by decide) (by decide)⟩

/-- C8: every accepted submission (non-empty trimmed message, no
generation in flight) ends — whatever the pipeline outcome, success,
API error or thrown exception — with the in-flight guard lowered and
the generating status indicator cleared, because the `finally` block
runs unconditionally. -/
theorem generating_guard_cleared (st : AppState) (input : String) (outcome : TryOutcome)
    (h1 : jsTrim input ≠ "")
    (h2 : st.isGenerating = false) :
    (handleChatSubmit st input outcome).isGenerating = false ∧
    (handleChatSubmit st input outcome).statusHidden = true := by
  unfold handleChatSubmit
  have hcond : ¬ (jsTrim input = "" ∨ st.isGenerating = true) := by
    simp [h1, h2]
  rw [if_neg hcond]
  exact ⟨rfl, rfl⟩

theorem generating_guard_cleared_witness :
    jsTrim " hi " ≠ "" ∧
    (⟨false, true, [], some "c1", [("c1", ⟨"c1", "New chat", "2024", []⟩)], none⟩
      : AppState).isGenerating = false ∧
    (handleChatSubmit
        ⟨false, true, [], some "c1", [("c1", ⟨"c1", "New chat", "2024", []⟩)], none⟩
        " hi " TryOutcome.threw).isGenerating = false ∧
    (handleChatSubmit
        ⟨false, true, [], some "c1", [("c1", ⟨"c1", "New chat", "2024", []⟩)], none⟩
        " hi " TryOutcome.threw).statusHidden = true :=
  ⟨by decide, rfl,
   (generating_guard_cleared _ " hi " TryOutcome.threw (by decide) rfl).1,
   (generating_guard_cleared _ " hi " TryOutcome.threw (by decide) rfl).2⟩

/-- C10: on every accepted submission the user's turn is appended to
the history and persisted by `recordUserTurn` — i.e. before the `try`
block and hence before any network call — and when the pipeline then
fails (an exception, or a non-success API status) the final history
and the persisted store contain exactly that user turn and nothing
else: the displayed error message is never appended, and an assistant
turn is recorded only on a successful API response. -/
theorem user_turn_persisted_first (st : AppState) (input : String) (id : String)
    (outcome : TryOutcome)
    (h1 : jsTrim input ≠ "")
    (h2 : st.isGenerating = false)
    (h3 : st.currentChatId = some id)
    (h4 : (lookupChat st.allChats id).isSome)
    (h5 : outcome = TryOutcome.threw ∨
      ∃ resp nested, outcome = TryOutcome.completed resp nested ∧ resp.status ≠ "success") :
    reloadSession (recordUserTurn st (jsTrim input)).store id =
      some (st.conversationHistory ++ [⟨"user", jsTrim input⟩]) ∧
    (handleChatSubmit st input outcome).conversationHistory =
      st.conversationHistory ++ [⟨"user", jsTrim input⟩] ∧
    reloadSession (handleChatSubmit st input outcome).store id =
      some (st.conversationHistory ++ [⟨"user", jsTrim input⟩]) := by
  have hA := addToHistory_saved st id "user" (jsTrim input) h3 h4
  have hrec : (recordUserTurn st (jsTrim input)).store =
      (addToHistory st "user" (jsTrim input)).store := rfl
  have hreload : reloadSession (addToHistory st "user" (jsTrim input)).store id =
      some (st.conversationHistory ++ [⟨"user", jsTrim input⟩]) := by
    obtain ⟨c2, hc2, hm2⟩ := hA.2.2.2.1
    unfold reloadSession
    rw [hA.2.2.1]
    dsimp only
    rw [decodeChats_encodeChats]
    dsimp only
    rw [hc2]
    dsimp only
    rw [hm2, hA.2.1]
  have hcond : ¬ (jsTrim input = "" ∨ st.isGenerating = true) := by
    simp [h1, h2]
  have hfinal : (handleChatSubmit st input outcome).conversationHistory =
        (addToHistory st "user" (jsTrim input)).conversationHistory ∧
      (handleChatSubmit st input outcome).store =
        (addToHistory st "user" (jsTrim input)).store := by
    unfold handleChatSubmit
    rw [if_neg hcond]
    rcases h5 with h5 | ⟨resp, nested, h5, hst⟩
    · subst h5
      exact ⟨rfl, rfl⟩
    · subst h5
      dsimp only
      unfold handleResponse
      rw [if_neg hst]
      exact ⟨rfl, rfl⟩
  refine ⟨by rw [hrec]; exact hreload, ?_, ?_⟩
  · rw [hfinal.1, hA.2.1]
  · rw [hfinal.2]
    exact hreload

theorem user_turn_persisted_first_witness :
    jsTrim "hello" ≠ "" ∧
    (handleChatSubmit
        ⟨false, true, [], some "c1", [("c1", ⟨"c1", "New chat", "2024", []⟩)], none⟩
        "hello" (TryOutcome.completed ⟨"error", "", ""⟩ ⟨"", "", ""⟩)).conversationHistory =
      [⟨"user", "hello"⟩] ∧
    reloadSession (handleChatSubmit
        ⟨false, true, [], some "c1", [("c1", ⟨"c1", "New chat", "2024", []⟩)], none⟩
        "hello" (TryOutcome.completed ⟨"error", "", ""⟩ ⟨"", "", ""⟩)).store "c1" =
      some [⟨"user", "hello"⟩] :=
  ⟨by decide,
   (user_turn_persisted_first _ "hello" "c1" _ (by decide) rfl rfl (by decide)
      (Or.inr ⟨⟨"error", "", ""⟩, ⟨"", "", ""⟩, rfl, by decide⟩)).2.1,
   (user_turn_persisted_first _ "hello" "c1" _ (by decide) rfl rfl (by decide)
      (Or.inr ⟨⟨"error", "", ""⟩, ⟨"", "", ""⟩, rfl, by decide⟩)).2.2⟩
